import Mathlib

/-!
Shallow embedding of the order/subscription conversation engine of the
AquaPure water-delivery Telegram bot (src/telegram_bot/main.py and
src/telegram_bot/services.py), together with theorems settling the frozen
claims about it.

Modelling conventions:
* `Decimal`/numeric amounts are embedded as `ℚ` (exact arithmetic; the
  Python code converts between `Decimal` and `float`, both of which are
  exact on the small integral values occurring here).
* datetimes are embedded as natural numbers counting whole hours since an
  arbitrary epoch, so that a calendar day is 24 consecutive hours and
  `replace(hour := h)` on a midnight-aligned value is `day * 24 + h`;
  calendar dates are embedded as the day index `t / 24`.
* database ids are embedded as `ℕ`.
* Python dict entries that may be absent are embedded as `Option`;
  `d.get(k, v)` is `(… ).getD v` and a plain `d[k]` on a possibly missing
  key is modelled by an explicit crash outcome.
-/

unseal Rat.add Rat.mul Rat.sub Rat.inv

/-- Embeds `DeliverySlot` from services.py: slot id string, start and end time
(hours since epoch in this embedding). -/
structure DeliverySlot where
  slot_id : String
  start_time : Nat
  end_time : Nat
  deriving DecidableEq, Repr

/-- Two-digit rendering of an hour, as Python `f"{hour:02d}"`. -/
def pad2 (h : Nat) : String :=
  if h < 10 then "0" ++ toString h else toString h

/-- The slot id string built in `DeliveryService._generate_time_slots`:
`f"{current_date.strftime('%d.%m.%Y')} {hour:02d}:00-{hour+2:02d}:00"`.
The calendar date is rendered through the day index of this embedding. -/
def slot_id_str (day hour : Nat) : String :=
  toString day ++ " " ++ pad2 hour ++ ":00-" ++ pad2 (hour + 2) ++ ":00"

/-- Embeds `DeliveryService._generate_time_slots` (services.py:327-346).
`base_day` is the day index of `datetime.now()`; `base_date` in the code is
that day at 09:00.  For each of the next 7 days and each `hour` in
`range(9, 18)` it emits the slot `[day*24+hour, day*24+hour+2)`. -/
def _generate_time_slots (base_day : Nat) : List DeliverySlot :=
  (List.range 7).flatMap (fun day =>
    (List.range' 9 9).map (fun hour =>
      { slot_id := slot_id_str (base_day + day) hour
        start_time := (base_day + day) * 24 + hour
        end_time := (base_day + day) * 24 + hour + 2 }))

/-- Embeds `DeliveryService.get_available_slots` (services.py:348-363): keep the
slots whose id is not among the booked slot ids of non-terminal orders and
whose start time is still in the future, and return the first 20. -/
def get_available_slots (time_slots : List DeliverySlot)
    (booked_slot_ids : List String) (now : Nat) : List DeliverySlot :=
  (time_slots.filter
    (fun slot => !booked_slot_ids.contains slot.slot_id
        && decide (now < slot.start_time))).take 20

/-- Embeds `DeliveryService.calculate_delivery_fee` (services.py:269-284).  The
geodesic distance computation is an external collaborator; its outcome is
the `Except` argument (`.error` models the raised exception on missing or
invalid coordinates).  On success the fee is 5000 base plus 500 per km; on
any error the fixed default 10000 is returned. -/
def calculate_delivery_fee (distance_km : Except Unit ℚ) : ℚ :=
  match distance_km with
  | .ok distance => 5000 + distance * 500
  | .error _ => 10000

/-- A product row as returned by `ProductService.get_product_by_id`
(services.py:851-858): id, name, unit price, stock quantity. -/
structure Product where
  id : Nat
  name : String
  price : ℚ
  stock_quantity : Nat
  deriving DecidableEq, Repr

/-- A cart line item, the dict appended in the SELECT_QUANTITY branch of
`WaterBusinessBot.order_callback_handler` (main.py:1286-1291). -/
structure CartItem where
  id : Nat
  name : String
  price : ℚ
  quantity : Nat
  deriving DecidableEq, Repr

/-- The cart append of main.py:1286-1292: `cart.append({...})`.  A new
line item is always appended at the end; nothing is merged. -/
def add_item (cart : List CartItem) (product : Product) (qty : Nat) :
    List CartItem :=
  cart ++ [{ id := product.id, name := product.name,
             price := product.price, quantity := qty }]

/-- The cart/order base total `sum(item['price'] * item['quantity'])`, as
computed in `get_cart_text` (main.py:1249), in the PAYMENT_METHOD and
CONFIRM branches (main.py:1403, 1418) and in `OrderService.create_order`
(services.py:766). -/
def cart_total (cart : List CartItem) : ℚ :=
  (cart.map (fun item => item.price * (item.quantity : ℚ))).sum

/-- A persisted order row as written by `OrderService.create_order`
(services.py:760-792), restricted to the columns the claims are about,
plus its `order_items` rows. -/
structure Order where
  user_id : Nat
  status : String
  total_amount : ℚ
  delivery_fee : ℚ
  delivery_address_id : Option Nat
  payment_method : String
  items : List CartItem
  deriving DecidableEq, Repr

/-- Embeds `OrderService.create_order` (services.py:760-792): computes
`total_amount = sum(item['price'] * item['quantity'] for item in items)`,
inserts the order row with status `'pending'` and the literal
`delivery_fee` value `0.00`, then inserts one `order_items` row per line
item.  The delivery fee selected in the conversation is not a parameter
of this function. -/
def create_order (user_id : Nat) (items : List CartItem)
    (delivery_address_id : Option Nat) (payment_method : String) : Order :=
  { user_id := user_id
    status := "pending"
    total_amount := cart_total items
    delivery_fee := 0
    delivery_address_id := delivery_address_id
    payment_method := payment_method
    items := items }

/-- A row of the `loyalty_transactions` table (`transaction_type`,
`points`). -/
structure LoyaltyTx where
  transaction_type : String
  points : Int
  deriving DecidableEq, Repr

/-- Embeds `PaymentService.process_loyalty_payment` (services.py:206-231): if the
user's balance is below the amount, return `false` and change nothing;
otherwise deduct `int(amount)` points, log a debit transaction and return
`true`.  Result: (returned bool, new balance, appended transactions). -/
def process_loyalty_payment (loyalty_points : ℚ) (amount : ℚ) :
    Bool × ℚ × List LoyaltyTx :=
  if loyalty_points < amount then (false, loyalty_points, [])
  else (true, loyalty_points - (amount.floor : ℚ),
        [{ transaction_type := "debit", points := amount.floor }])

/-- Embeds `PaymentService.add_loyalty_points` (services.py:233-249): add the
points and log a credit transaction. -/
def add_loyalty_points (loyalty_points : ℚ) (points : Int) :
    ℚ × List LoyaltyTx :=
  (loyalty_points + (points : ℚ),
   [{ transaction_type := "credit", points := points }])

/-- A delivery row as inserted by `DeliveryService.schedule_delivery`
(services.py:286-325). -/
structure Delivery where
  order_user_id : Nat
  scheduled_date : Nat
  scheduled_time_slot : String
  status : String
  deriving DecidableEq, Repr

/-- Embeds `DeliveryService.schedule_delivery` (services.py:286-325): if a
delivery person is free for the slot, insert a delivery row with status
`'scheduled'` and update the order's status to `'confirmed'`, returning
`true`; otherwise (or on any DB error, which the function catches itself)
return `false` and change nothing. -/
def schedule_delivery (person_available : Bool) (order : Order)
    (delivery_date : Nat) (time_slot : String) :
    Bool × Option Delivery × Order :=
  if person_available then
    (true,
     some { order_user_id := order.user_id, scheduled_date := delivery_date,
            scheduled_time_slot := time_slot, status := "scheduled" },
     { order with status := "confirmed" })
  else (false, none, order)

/-- Splitting a character list on the space character, as Python
`str.split(' ')`. -/
def split_on_space : List Char → List (List Char)
  | [] => [[]]
  | c :: rest =>
    if c = ' ' then [] :: split_on_space rest
    else
      match split_on_space rest with
      | w :: ws => (c :: w) :: ws
      | [] => [[c]]

/-- Parsing a non-empty all-digit character list as a decimal number, as
Python `int(...)` on such strings (`none` on anything else). -/
def digits_to_nat (acc : Nat) : List Char → Option Nat
  | [] => some acc
  | c :: rest =>
    if c.isDigit then digits_to_nat (acc * 10 + (c.toNat - 48)) rest
    else none

/-- Python `int(s)` restricted to unsigned decimal notation: `none` when
the string is empty or has any non-digit character (the raising path). -/
def int_of_str (s : String) : Option Nat :=
  match s.toList with
  | [] => none
  | cs => digits_to_nat 0 cs

/-- The slot-id parsing of main.py:1367-1375.  The callback payload is
split on the space; the date part is parsed back (modelled on the day
index of this embedding) and the hour part is fed to `int(...)`.  The hour
part of a generated slot id is the whole bracket `"HH:00-HH:00"`, so
`int(hour_str)` raises and the `except` branch substitutes today's date
and the fixed bracket `"09:00-11:00"`. -/
def parse_slot_callback (slot_id : String) (today : Nat) : Nat × String :=
  match (split_on_space slot_id.toList).map List.asString with
  | [date_str, hour_str] =>
    match int_of_str date_str, int_of_str hour_str with
    | some d, some h =>
        (d, toString h ++ ":00-" ++ toString (h + 2) ++ ":00")
    | _, _ => (today, "09:00-11:00")
  | _ => (today, "09:00-11:00")

/-- The per-user session dict of the order conversation
(`self.user_states[user_id]`), with one `Option` field per key that the
handler may leave absent. -/
structure OrderState where
  state : String
  selected_product : Option Product := none
  cart : Option (List CartItem) := none
  selected_address_id : Option Nat := none
  delivery_fee : Option ℚ := none
  slots : Option (List DeliverySlot) := none
  selected_slot : Option String := none
  delivery_date : Option Nat := none
  time_slot : Option String := none
  payment_method : Option String := none
  card_paid : Option Bool := none
  deriving DecidableEq, Repr

/-- The session created by `order_command` (main.py:638-641):
`{'state': ORDER_STATE['SELECT_PRODUCT'], 'cart': []}`. -/
def order_command_session : OrderState :=
  { state := "select_product", cart := some [] }

/-- The read-only collaborator environment of one handler invocation:
the user's DB id and loyalty balance source, the product and address
tables, the geodesic outcome, the slot data, the clock, and the outcome
of each fallible collaborator call. -/
structure Env where
  uid : Nat
  products : List Product
  address_ids : List Nat
  distance_km : Except Unit ℚ
  booked_slot_ids : List String
  time_slots : List DeliverySlot
  now : Nat
  delivery_person_available : Bool
  order_db_fails : Bool
  stripe_fails : Bool

/-- Embeds `ProductService.get_product_by_id` (services.py:851-858) over the
embedded product table. -/
def get_product_by_id (env : Env) (pid : Nat) : Option Product :=
  env.products.find? (fun p => p.id == pid)

/-- Outcome of the stock re-validation loop at main.py:1420-1424. -/
inductive StockCheck where
  | ok
  | insufficient
  | missing_product
  deriving DecidableEq, Repr

/-- The stock re-validation loop (main.py:1420-1424): for each cart item
in order, fetch the product; a missing product makes
`product['stock_quantity']` raise, an insufficient one triggers the
out-of-stock return. -/
def check_stock (env : Env) : List CartItem → StockCheck
  | [] => .ok
  | item :: rest =>
    match get_product_by_id env item.id with
    | none => .missing_product
    | some p =>
      if p.stock_quantity < item.quantity then .insufficient
      else check_stock env rest

/-- The callback payloads dispatched by `order_callback_handler`
(`query.data`), one constructor per recognised pattern. -/
inductive CallbackData where
  | order_product (pid : Nat)
  | order_qty (qty : Nat)
  | order_add_more
  | order_delivery
  | order_cancel
  | select_addr (aid : Nat)
  | order_slot (slot_id : String)
  | order_pay_cash
  | order_pay_card
  | order_pay_loyalty
  | order_confirm
  deriving DecidableEq, Repr

/-- The bot-side mutable state one `order_callback_handler` call can
touch: this user's session entry, the order / delivery / loyalty tables,
and the last message shown to the user (`none` when the call edited
nothing).  An unhandled Python exception escaping the handler is modelled
by the reply `"unhandled_exception"` with every store left unchanged. -/
structure BotState where
  session : Option OrderState
  orders : List Order
  deliveries : List Delivery
  loyalty_points : ℚ
  loyalty_transactions : List LoyaltyTx
  reply : Option String
  deriving DecidableEq, Repr

/-- Embeds `WaterBusinessBot.order_callback_handler` (main.py:1252-1465) as a
step function on the bot state.  Each `elif` arm of the Python dispatch on
`state['state']` / `query.data` appears in the same order; an arm whose
`query.data` pattern does not match leaves everything unchanged with no
reply, exactly like the silently-ignored `elif` miss in the code. -/
def order_callback_handler (env : Env) (st : BotState)
    (data : CallbackData) : BotState :=
  match st.session with
  | none =>
    -- main.py:1261-1263: no draft → "session expired"
    { st with reply := some "session_expired" }
  | some s =>
    if s.state = "select_product" then
      match data with
      | .order_product pid =>
        match get_product_by_id env pid with
        | none => { st with reply := some "no_products" }
        | some product =>
          { st with
            session := some { s with selected_product := some product,
                                     state := "select_quantity" }
            reply := some "select_quantity" }
      | _ => { st with reply := none }
    else if s.state = "select_quantity" then
      match data with
      | .order_qty qty =>
        match s.selected_product with
        | none =>
          -- `state['selected_product']` raises KeyError
          { st with reply := some "unhandled_exception" }
        | some product =>
          let cart := s.cart.getD []
          let cart := add_item cart product qty
          { st with
            session := some { s with cart := some cart, state := "cart" }
            reply := some "cart" }
      | _ => { st with reply := none }
    else if s.state = "cart" then
      match data with
      | .order_add_more =>
        { st with session := some { s with state := "select_product" }
                  reply := some "select_product" }
      | .order_delivery =>
        if env.address_ids.isEmpty then
          { st with reply := some "no_addresses" }
        else
          { st with session := some { s with state := "SELECT_ADDRESS" }
                    reply := some "select_address" }
      | .order_cancel =>
        { st with session := none, reply := some "order_cancelled" }
      | _ => { st with reply := none }
    else if s.state = "SELECT_ADDRESS" then
      match data with
      | .select_addr aid =>
        let s := { s with selected_address_id := some aid,
                          state := "delivery_slot" }
        -- main.py:1349-1350: fee and slot lookup
        let fee := calculate_delivery_fee env.distance_km
        let slots :=
          get_available_slots env.time_slots env.booked_slot_ids env.now
        if slots.isEmpty then
          { st with session := some s, reply := some "no_delivery_slots" }
        else
          { st with
            session := some { s with delivery_fee := some fee,
                                     slots := some slots }
            reply := some "select_delivery_slot" }
      | _ => { st with session := some s, reply := none }
    else if s.state = "delivery_slot" then
      match data with
      | .order_slot slot_id =>
        let parsed := parse_slot_callback slot_id (env.now / 24)
        { st with
          session := some { s with selected_slot := some slot_id,
                                   delivery_date := some parsed.1,
                                   time_slot := some parsed.2,
                                   state := "payment_method" }
          reply := some "choose_payment_method" }
      | _ => { st with reply := none }
    else if s.state = "payment_method" then
      let payment_method : Option String :=
        match data with
        | .order_pay_cash => some "cash"
        | .order_pay_card => some "card"
        | .order_pay_loyalty => some "loyalty"
        | _ => none
      match payment_method with
      | some pm =>
        { st with
          session := some { s with payment_method := some pm,
                                   state := "confirm" }
          reply := some "order_summary" }
      | none => { st with reply := none }
    else if s.state = "confirm" then
      match data with
      | .order_confirm =>
        match s.cart, s.payment_method with
        | none, _ | _, none =>
          -- `state['cart']` / `state['payment_method']` raise KeyError
          { st with reply := some "unhandled_exception" }
        | some cart, some pm =>
          let total := cart_total cart + s.delivery_fee.getD 0
          match check_stock env cart with
          | .missing_product => { st with reply := some "unhandled_exception" }
          | .insufficient => { st with reply := some "out_of_stock" }
          | .ok =>
            if pm = "card" && !(s.card_paid.getD false) then
              { st with
                session := some { s with card_paid := some false }
                reply := some "card_payment_confirm" }
            else
              match s.delivery_date, s.time_slot with
              | none, _ | _, none =>
                -- `state['delivery_date']` / `state['time_slot']` raise
                { st with reply := some "unhandled_exception" }
              | some delivery_date, some time_slot =>
                if env.order_db_fails then
                  -- create_order re-raises; caught at main.py:1450-1452,
                  -- then the session is deleted (main.py:1453)
                  { st with session := none, reply := some "order_error" }
                else
                  let order := create_order env.uid cart
                      s.selected_address_id pm
                  let sched := schedule_delivery env.delivery_person_available
                      order delivery_date time_slot
                  let orders := st.orders ++ [sched.2.2]
                  let deliveries := st.deliveries ++ sched.2.1.toList
                  if pm = "card" && env.stripe_fails then
                    -- create_payment_intent raises after the order row
                    -- and delivery row were committed
                    { st with session := none, orders := orders,
                              deliveries := deliveries,
                              reply := some "order_error" }
                  else
                    let afterPay :=
                      if pm = "loyalty" then
                        -- return value ignored at main.py:1444
                        process_loyalty_payment st.loyalty_points total
                      else (true, st.loyalty_points, [])
                    let award := add_loyalty_points afterPay.2.1
                        (total * (5 / 100 : ℚ)).floor
                    { st with
                      session := none
                      orders := orders
                      deliveries := deliveries
                      loyalty_points := award.1
                      loyalty_transactions := st.loyalty_transactions
                          ++ afterPay.2.2 ++ award.2
                      reply := some "order_success" }
      | .order_cancel =>
        { st with session := none, reply := some "order_cancelled" }
      | _ => { st with reply := none }
    else
      -- includes the unreachable 'CARD_PAYMENT_CONFIRM' arm
      { st with reply := none }

/-- Folding a whole sequence of callbacks through the handler. -/
def run_callbacks (env : Env) (st : BotState)
    (actions : List CallbackData) : BotState :=
  actions.foldl (order_callback_handler env) st

/-- A `subscriptions` row (services.py:874-889 / main.py renewal query):
user, product, frequency in days, quantity, next delivery date (a day
index in this embedding) and status. -/
structure Subscription where
  user_id : Nat
  product_id : Nat
  frequency_days : Nat
  quantity : Nat
  next_delivery_date : Nat
  status : String
  deriving DecidableEq, Repr

/-- PostgreSQL's parser for an interval literal of the shape
`'<n> days'`: the text before `" days"` must be a number.  Used to embed
the SQL fragment `INTERVAL '$3 days'` of
`SubscriptionService.create_subscription` (services.py:882): `$3` sits
inside a single-quoted string literal, so it is never substituted by
asyncpg and PostgreSQL receives the literal text `$3 days`. -/
def pg_interval_days (s : String) : Option Nat :=
  match (split_on_space s.toList).map List.asString with
  | [n, "days"] => int_of_str n
  | _ => none

/-- Embeds `SubscriptionService.create_subscription` (services.py:874-889).  The
INSERT computes `next_delivery_date` as
`CURRENT_DATE + INTERVAL '$3 days'`; the interval literal is the fixed
text `$3 days`, which PostgreSQL rejects, so the statement raises and the
method re-raises (after logging).  `today` is `CURRENT_DATE` as a day
index. -/
def create_subscription (today : Nat) (user_id product_id : Nat)
    (frequency_days quantity : Nat) : Except Unit Subscription :=
  match pg_interval_days "$3 days" with
  | some d =>
    .ok { user_id := user_id, product_id := product_id,
          frequency_days := frequency_days, quantity := quantity,
          next_delivery_date := today + d, status := "active" }
  | none => .error ()

/-- The commit arm of `subscribe_callback_handler`
(main.py:1861-1874): call `create_subscription`; on success reply
"subscription_created", on exception reply "subscription_failed"; either
way the session entry is deleted.  Returns the subscription store and the
reply. -/
def subscribe_commit (today : Nat) (user_id product_id : Nat)
    (frequency_days quantity : Nat) (subs : List Subscription) :
    List Subscription × String :=
  match create_subscription today user_id product_id frequency_days
      quantity with
  | .ok sub => (subs ++ [sub], "subscription_created")
  | .error _ => (subs, "subscription_failed")

/-- Embeds `SubscriptionService.get_due_renewals` (services.py:934-938): active
subscriptions whose next delivery date is today or earlier. -/
def get_due_renewals (subs : List Subscription) (today : Nat) :
    List Subscription :=
  subs.filter (fun s =>
    decide (s.next_delivery_date ≤ today) && s.status == "active")

/-- Embeds `WaterBusinessBot.process_subscription_renewals` (main.py:2429-2435),
the definition that is actually bound on the class: the earlier method of
the same name at main.py:1596-1626 is shadowed by this later duplicate.
It fetches the due renewals and sends a notification per subscription —
it creates no order and advances no next-delivery date.  Result:
(subscription store, order store, notified (user_id, …) pairs). -/
def process_subscription_renewals (subs : List Subscription)
    (orders : List Order) (today : Nat) :
    List Subscription × List Order × List Nat :=
  (subs, orders, (get_due_renewals subs today).map (fun s => s.user_id))

/-- Iterating the cart append of main.py:1286-1292 over a list of
(product, quantity) add-operations, in order. -/
def apply_adds (cart : List CartItem) (adds : List (Product × Nat)) :
    List CartItem :=
  adds.foldl (fun c pq => add_item c pq.1 pq.2) cart

/-- The product table used by the concrete scenarios: one product,
"10L bottle" at unit price 9, from the example in spec §8. -/
def bottle : Product :=
  { id := 1, name := "10L bottle", price := 9, stock_quantity := 100 }

/-- Environment for the concrete full-conversation run: distance 4 km
(fee 7000), ample stock, all collaborators succeed; slots generated for
day 1 with the clock at hour 0. -/
def runEnv : Env :=
  { uid := 1
    products := [bottle]
    address_ids := [1]
    distance_km := .ok 4
    booked_slot_ids := []
    time_slots := _generate_time_slots 1
    now := 0
    delivery_person_available := true
    order_db_fails := false
    stripe_fails := false }

/-- Fresh bot state holding the session just created by `/order`. -/
def runInit : BotState :=
  { session := some order_command_session, orders := [], deliveries := [],
    loyalty_points := 0, loyalty_transactions := [], reply := none }

/-- The full valid conversation of spec §8's example scenario:
product → quantity 2 → proceed → address → slot → cash → confirm. -/
def runActions : List CallbackData :=
  [.order_product 1, .order_qty 2, .order_delivery, .select_addr 1,
   .order_slot "1 09:00-11:00", .order_pay_cash, .order_confirm]

/-- A draft session sitting at the Confirm step: two bottles in the cart,
fee 7000 recorded at the slot step, loyalty chosen as payment method. -/
def confirmSessionLoyalty : OrderState :=
  { state := "confirm"
    cart := some [{ id := 1, name := "10L bottle", price := 9, quantity := 2 }]
    selected_address_id := some 1
    delivery_fee := some 7000
    selected_slot := some "1 09:00-11:00"
    delivery_date := some 1
    time_slot := some "09:00-11:00"
    payment_method := some "loyalty" }

/-- Bot state for the insufficient-loyalty scenario: balance 10, far below
the 7018 due. -/
def loyaltySt : BotState :=
  { session := some confirmSessionLoyalty, orders := [], deliveries := [],
    loyalty_points := 10, loyalty_transactions := [], reply := none }

/-- The same Confirm-step draft paying cash, for the stock scenario. -/
def confirmSessionCash : OrderState :=
  { confirmSessionLoyalty with payment_method := some "cash" }

/-- Environment whose product table has only 1 bottle left, so the
quantity-2 cart fails the stock re-validation. -/
def lowStockEnv : Env :=
  { runEnv with products := [{ bottle with stock_quantity := 1 }] }

/-- Bot state for the stock scenario. -/
def lowStockSt : BotState :=
  { session := some confirmSessionCash, orders := [], deliveries := [],
    loyalty_points := 0, loyalty_transactions := [], reply := none }

/-- Bot state holding the cash-payment Confirm-step draft. -/
def cashSt : BotState :=
  { session := some confirmSessionCash, orders := [], deliveries := [],
    loyalty_points := 0, loyalty_transactions := [], reply := none }

/-- The due subscription of spec §8's renewal example: next delivery on
day 100 (today), frequency 7 days. -/
def dueSub : Subscription :=
  { user_id := 1, product_id := 1, frequency_days := 7, quantity := 2,
    next_delivery_date := 100, status := "active" }

/-- C2: for every candidate slot list, booked-id set and current time,
`get_available_slots` returns only slots starting strictly after `now`
whose id is not booked, preserves the order of the candidates, and is the
20-element prefix of the surviving slots. -/
theorem C2_available_slots_spec (time_slots : List DeliverySlot)
    (booked : List String) (now : Nat) :
    (∀ slot ∈ get_available_slots time_slots booked now,
        now < slot.start_time ∧ slot.slot_id ∉ booked)
    ∧ (get_available_slots time_slots booked now).Sublist time_slots
    ∧ (get_available_slots time_slots booked now).length ≤ 20
    ∧ get_available_slots time_slots booked now
        = (time_slots.filter (fun slot =>
            !booked.contains slot.slot_id
              && decide (now < slot.start_time))).take 20 := by
  refine ⟨?_, ?_, ?_, rfl⟩
  · intro slot hmem
    have hf := List.mem_of_mem_take hmem
    have := List.mem_filter.mp hf
    have h2 := this.2
    simp at h2
    exact ⟨h2.2, h2.1⟩
  · exact (List.take_sublist _ _).trans (List.filter_sublist _)
  · simp [get_available_slots]

/-- Witness for C2 at a concrete input: the surviving slot
`⟨"a", 5, 7⟩` indeed starts after `now = 2` and is not booked. -/
theorem C2_available_slots_spec_witness :
    2 < 5 ∧ "a" ∉ ["b"] :=
  (C2_available_slots_spec
      [{ slot_id := "a", start_time := 5, end_time := 7 },
       { slot_id := "b", start_time := 1, end_time := 3 }] ["b"] 2).1
    { slot_id := "a", start_time := 5, end_time := 7 } (by decide)

/-- C3: the delivery fee is the 5000 base fee plus 500 per kilometre of
the computed distance, and any failure of the distance computation
(missing/invalid coordinates) yields the fixed default 10000; in
particular a 4 km distance prices at 7000. -/
theorem C3_delivery_fee_spec :
    (∀ d : ℚ, calculate_delivery_fee (.ok d) = 5000 + 500 * d)
    ∧ calculate_delivery_fee (.error ()) = 10000
    ∧ calculate_delivery_fee (.ok 4) = 5000 + 4 * 500 := by
  refine ⟨fun d => ?_, rfl, by norm_num [calculate_delivery_fee]⟩
  simp [calculate_delivery_fee]; ring

/-- Appending one line item adds exactly its `price * quantity` to the
cart total. -/
theorem cart_total_add_item (cart : List CartItem) (p : Product)
    (q : Nat) :
    cart_total (add_item cart p q) = cart_total cart + p.price * q := by
  simp [cart_total, add_item]

/-- The cart total after a sequence of add-operations is the starting
total plus the sum of `price * quantity` over the operations. -/
theorem cart_total_apply_adds (cart : List CartItem)
    (adds : List (Product × Nat)) :
    cart_total (apply_adds cart adds)
      = cart_total cart
        + (adds.map (fun pq => pq.1.price * (pq.2 : ℚ))).sum := by
  induction adds generalizing cart with
  | nil => simp [apply_adds]
  | cons a rest ih =>
    have h1 : apply_adds cart (a :: rest)
        = apply_adds (add_item cart a.1 a.2) rest := rfl
    rw [h1, ih, cart_total_add_item]
    simp [add_assoc]

/-- C5: adding the same product twice appends two separate line items
(the cart is extended by exactly those two rows, merging nothing), their
joint contribution to the total is `(q1 + q2) * unitPrice`, and the cart
total after any sequence of add-operations depends only on the multiset
of operations (it is invariant under permutation). -/
theorem C5_add_item_spec (cart : List CartItem) (p : Product)
    (q1 q2 : Nat) :
    (add_item (add_item cart p q1) p q2
      = cart ++ [{ id := p.id, name := p.name, price := p.price,
                   quantity := q1 },
                 { id := p.id, name := p.name, price := p.price,
                   quantity := q2 }])
    ∧ (add_item (add_item cart p q1) p q2).length = cart.length + 2
    ∧ cart_total (add_item (add_item cart p q1) p q2)
        = cart_total cart + ((q1 : ℚ) + (q2 : ℚ)) * p.price
    ∧ ∀ adds adds' : List (Product × Nat), adds.Perm adds' →
        cart_total (apply_adds cart adds)
          = cart_total (apply_adds cart adds') := by
  refine ⟨by simp [add_item], by simp [add_item], ?_, ?_⟩
  · rw [cart_total_add_item, cart_total_add_item]; ring
  · intro adds adds' hperm
    rw [cart_total_apply_adds, cart_total_apply_adds,
      (hperm.map _).sum_eq]

/-- Witness for C5 at a concrete input: swapping the two adds of the
"10L bottle" leaves the total unchanged. -/
theorem C5_add_item_spec_witness :
    cart_total (apply_adds [] [(bottle, 1), (bottle, 2)])
      = cart_total (apply_adds [] [(bottle, 2), (bottle, 1)]) :=
  (C5_add_item_spec [] bottle 1 2).2.2.2 _ _ (by decide)

/-- C4 counterexample: the first two generated brackets of the first day
are [9:00, 11:00) and [10:00, 12:00) — the second bracket starts one hour
before the first one ends, so brackets are not laid back-to-back and do
overlap. -/
theorem C4_back_to_back_counterexample :
    ((_generate_time_slots 0).map DeliverySlot.start_time)[1]? = some 10
    ∧ ((_generate_time_slots 0).map DeliverySlot.end_time)[0]? = some 11
    ∧ 10 < 11 ∧ (10 : Nat) ≠ 11 := by
  refine ⟨rfl, rfl, by omega, by omega⟩

/-- C4 amended: slot generation is a pure function of the base day that,
for each of the 7 lookahead days, emits one 2-hour bracket
`[start, start + 2)` starting at every whole hour from 9:00 to 17:00 (63
slots in total); consecutive brackets of a day start one hour apart and
therefore overlap by one hour instead of being laid back-to-back. -/
theorem C4_slots_amended (base_day : Nat) :
    (∀ s, s ∈ _generate_time_slots base_day ↔
      ∃ day, day < 7 ∧ ∃ hour, 9 ≤ hour ∧ hour < 18 ∧
        s = { slot_id := slot_id_str (base_day + day) hour,
              start_time := (base_day + day) * 24 + hour,
              end_time := (base_day + day) * 24 + hour + 2 })
    ∧ (∀ s ∈ _generate_time_slots base_day, s.end_time = s.start_time + 2)
    ∧ (_generate_time_slots base_day).length = 63
    ∧ (∀ day, day < 7 → ∀ hour, 9 ≤ hour → hour < 17 →
        ({ slot_id := slot_id_str (base_day + day) (hour + 1),
           start_time := (base_day + day) * 24 + (hour + 1),
           end_time := (base_day + day) * 24 + (hour + 1) + 2 } :
            DeliverySlot) ∈ _generate_time_slots base_day
        ∧ (base_day + day) * 24 + (hour + 1)
            < (base_day + day) * 24 + hour + 2) := by
  have hmem : ∀ s, s ∈ _generate_time_slots base_day ↔
      ∃ day, day < 7 ∧ ∃ hour, 9 ≤ hour ∧ hour < 18 ∧
        s = { slot_id := slot_id_str (base_day + day) hour,
              start_time := (base_day + day) * 24 + hour,
              end_time := (base_day + day) * 24 + hour + 2 } := by
    intro s
    simp only [_generate_time_slots, List.mem_flatMap, List.mem_map,
      List.mem_range, List.mem_range'_1]
    constructor
    · rintro ⟨day, hday, hour, ⟨h9, h18⟩, rfl⟩
      exact ⟨day, hday, hour, h9, by omega, rfl⟩
    · rintro ⟨day, hday, hour, h9, h18, rfl⟩
      exact ⟨day, hday, hour, ⟨h9, by omega⟩, rfl⟩
  refine ⟨hmem, ?_, ?_, ?_⟩
  · intro s hs
    obtain ⟨day, _, hour, _, _, rfl⟩ := (hmem s).mp hs
    rfl
  · rfl
  · intro day hday hour h9 h17
    exact ⟨(hmem _).mpr ⟨day, hday, hour + 1, by omega, by omega, rfl⟩,
      by omega⟩

/-- Witness for C4 amended at a concrete input: the first bracket of day
0 is a member and spans exactly two hours. -/
theorem C4_slots_amended_witness :
    ({ slot_id := "0 09:00-11:00", start_time := 9, end_time := 11 } :
        DeliverySlot).end_time
      = ({ slot_id := "0 09:00-11:00", start_time := 9, end_time := 11 } :
        DeliverySlot).start_time + 2 :=
  (C4_slots_amended 0).2.1
    { slot_id := "0 09:00-11:00", start_time := 9, end_time := 11 }
    (by decide)

/-- C1 counterexample: running the full valid conversation of spec §8's
example (2 × 9 in the cart, 4 km → fee 7000, cash, confirm) persists an
order whose `total_amount` is the bare item sum 18, not the item sum plus
the delivery fee computed at the slot step — and whose stored
`delivery_fee` column is 0. -/
theorem C1_total_counterexample :
    ∃ o, (run_callbacks runEnv runInit runActions).orders = [o]
      ∧ o.total_amount = cart_total o.items
      ∧ o.total_amount
          ≠ cart_total o.items + calculate_delivery_fee runEnv.distance_km
      ∧ o.delivery_fee = 0 :=
  ⟨{ user_id := 1, status := "confirmed", total_amount := 18,
     delivery_fee := 0, delivery_address_id := some 1,
     payment_method := "cash",
     items := [{ id := 1, name := "10L bottle", price := 9,
                 quantity := 2 }] },
   by decide, by decide, by decide, by decide⟩

/-- C1 amended: every commit that reaches order creation persists exactly
one new order whose `total_amount` is exactly the sum of
`unitPrice * quantity` over the cart's line items — the delivery fee
computed at the slot step is not part of the persisted total, and the
persisted `delivery_fee` column is 0 (the fee only enters the amount used
in-conversation for payment capture). -/
theorem C1_total_amended (env : Env) (st : BotState) (s : OrderState)
    (cart : List CartItem) (pm : String) (dd : Nat) (ts : String)
    (hsess : st.session = some s) (hstate : s.state = "confirm")
    (hcart : s.cart = some cart) (hpm : s.payment_method = some pm)
    (hdd : s.delivery_date = some dd) (hts : s.time_slot = some ts)
    (hstock : check_stock env cart = .ok)
    (hcard : (pm = "card" && !(s.card_paid.getD false)) = false)
    (hdb : env.order_db_fails = false) :
    ∃ o, (order_callback_handler env st .order_confirm).orders
        = st.orders ++ [o]
      ∧ o.total_amount = cart_total cart
      ∧ o.delivery_fee = 0
      ∧ o.items = cart := by
  simp only [order_callback_handler, hsess, hstate, hcart, hpm, hdd, hts,
    hstock, hdb, hcard]
  cases hfail : (pm = "card" && env.stripe_fails) <;>
    cases havail : env.delivery_person_available <;>
      simp [hfail, havail, schedule_delivery, create_order]

/-- Witness for C1 amended at a concrete input: the cash commit of the
two-bottle draft persists one order totalling 18. -/
theorem C1_total_amended_witness :
    ∃ o, (order_callback_handler runEnv cashSt .order_confirm).orders
        = cashSt.orders ++ [o]
      ∧ o.total_amount
          = cart_total [{ id := 1, name := "10L bottle", price := 9,
                          quantity := 2 }]
      ∧ o.delivery_fee = 0
      ∧ o.items = [{ id := 1, name := "10L bottle", price := 9,
                     quantity := 2 }] :=
  C1_total_amended runEnv cashSt confirmSessionCash
    [{ id := 1, name := "10L bottle", price := 9, quantity := 2 }]
    "cash" 1 "09:00-11:00" rfl rfl rfl rfl rfl rfl (by decide) (by decide)
    rfl

/-- C7 counterexample: with only one bottle in stock and two in the cart,
the confirm action replies "out_of_stock" and creates no order, but the
session stays in the Confirm state — the user is not returned to the Cart
state as the claim says. -/
theorem C7_cart_state_counterexample :
    (order_callback_handler lowStockEnv lowStockSt
        .order_confirm).session.map OrderState.state ≠ some "cart"
    ∧ (order_callback_handler lowStockEnv lowStockSt
        .order_confirm).session.map OrderState.state = some "confirm"
    ∧ (order_callback_handler lowStockEnv lowStockSt .order_confirm).reply
        = some "out_of_stock"
    ∧ (order_callback_handler lowStockEnv lowStockSt
        .order_confirm).orders = [] := by decide

/-- C7 amended: when the stock re-validation at Confirm finds an
insufficient line item, the commit is aborted before any order is
created, an explicit out-of-stock message is shown, and the whole bot
state except the reply — in particular the draft with its full cart item
list, which stays in the Confirm state — is unchanged. -/
theorem C7_stock_abort_amended (env : Env) (st : BotState)
    (s : OrderState) (cart : List CartItem) (pm : String)
    (hsess : st.session = some s) (hstate : s.state = "confirm")
    (hcart : s.cart = some cart) (hpm : s.payment_method = some pm)
    (hstock : check_stock env cart = .insufficient) :
    order_callback_handler env st .order_confirm
      = { st with reply := some "out_of_stock" } := by
  simp [order_callback_handler, hsess, hstate, hcart, hpm, hstock]

/-- Witness for C7 amended at the concrete low-stock scenario. -/
theorem C7_stock_abort_amended_witness :
    order_callback_handler lowStockEnv lowStockSt .order_confirm
      = { lowStockSt with reply := some "out_of_stock" } :=
  C7_stock_abort_amended lowStockEnv lowStockSt confirmSessionCash
    [{ id := 1, name := "10L bottle", price := 9, quantity := 2 }]
    "cash" rfl rfl rfl rfl (by decide)

/-- C10: any confirm that passes the stock check and is not stopped by
the card-confirmation gate deletes the session entry — whatever the
outcome of order creation, delivery scheduling or payment capture (the
environment's failure flags are unconstrained) — and every later action
from a user without a session gets the session-expired reply and touches
no orders. -/
theorem C10_session_always_cleared (env : Env) (st : BotState)
    (s : OrderState) (cart : List CartItem) (pm : String) (dd : Nat)
    (ts : String)
    (hsess : st.session = some s) (hstate : s.state = "confirm")
    (hcart : s.cart = some cart) (hpm : s.payment_method = some pm)
    (hdd : s.delivery_date = some dd) (hts : s.time_slot = some ts)
    (hstock : check_stock env cart = .ok)
    (hcard : (pm = "card" && !(s.card_paid.getD false)) = false) :
    (order_callback_handler env st .order_confirm).session = none
    ∧ ∀ (st' : BotState) (d : CallbackData), st'.session = none →
        (order_callback_handler env st' d).reply = some "session_expired"
        ∧ (order_callback_handler env st' d).orders = st'.orders := by
  constructor
  · simp only [order_callback_handler, hsess, hstate, hcart, hpm, hdd,
      hts, hstock, hcard]
    cases hdb : env.order_db_fails <;>
      cases hfail : (pm = "card" && env.stripe_fails) <;>
        simp [hdb, hfail]
  · intro st' d h
    simp [order_callback_handler, h]

/-- Witness for C10 at a concrete input: the failing-DB cash commit of
the two-bottle draft clears the session. -/
theorem C10_session_always_cleared_witness :
    (order_callback_handler { runEnv with order_db_fails := true } cashSt
        .order_confirm).session = none
    ∧ ∀ (st' : BotState) (d : CallbackData), st'.session = none →
        (order_callback_handler { runEnv with order_db_fails := true }
            st' d).reply = some "session_expired"
        ∧ (order_callback_handler { runEnv with order_db_fails := true }
            st' d).orders = st'.orders :=
  C10_session_always_cleared { runEnv with order_db_fails := true } cashSt
    confirmSessionCash
    [{ id := 1, name := "10L bottle", price := 9, quantity := 2 }]
    "cash" 1 "09:00-11:00" rfl rfl rfl rfl rfl rfl (by decide) (by decide)

/-- C6 counterexample: confirming the two-bottle loyalty draft with a
balance of 10 (due: 18 + 7000 = 7018) persists the order anyway, shows
the success message, records no debit (only the 5% award credit), and the
balance is never reduced — the commit does not fail. -/
theorem C6_loyalty_counterexample :
    loyaltySt.loyalty_points
        < cart_total [{ id := 1, name := "10L bottle", price := 9,
                        quantity := 2 }]
          + confirmSessionLoyalty.delivery_fee.getD 0
    ∧ (order_callback_handler runEnv loyaltySt .order_confirm).orders.length
        = 1
    ∧ (order_callback_handler runEnv loyaltySt
        .order_confirm).loyalty_transactions.filter
          (fun t => t.transaction_type == "debit") = []
    ∧ (order_callback_handler runEnv loyaltySt .order_confirm).loyalty_points
        = loyaltySt.loyalty_points + 350
    ∧ (order_callback_handler runEnv loyaltySt .order_confirm).reply
        = some "order_success"
    ∧ (order_callback_handler runEnv loyaltySt .order_confirm).session
        = none := by decide

/-- C6 amended: on a loyalty commit whose balance is below the total,
`process_loyalty_payment` returns `False` without debiting and the
handler discards that result: the order is still persisted, no debit
transaction is recorded, the success message is shown and the session is
cleared — the commit does not abort and the persisted order is left with
no captured payment. -/
theorem C6_loyalty_insufficient_amended (env : Env) (st : BotState)
    (s : OrderState) (cart : List CartItem) (dd : Nat) (ts : String)
    (hsess : st.session = some s) (hstate : s.state = "confirm")
    (hcart : s.cart = some cart)
    (hpm : s.payment_method = some "loyalty")
    (hdd : s.delivery_date = some dd) (hts : s.time_slot = some ts)
    (hstock : check_stock env cart = .ok)
    (hdb : env.order_db_fails = false)
    (hpoints : st.loyalty_points < cart_total cart + s.delivery_fee.getD 0) :
    ∃ o, (order_callback_handler env st .order_confirm).orders
        = st.orders ++ [o]
      ∧ (order_callback_handler env st
          .order_confirm).loyalty_transactions.filter
            (fun t => t.transaction_type == "debit")
          = st.loyalty_transactions.filter
            (fun t => t.transaction_type == "debit")
      ∧ (order_callback_handler env st .order_confirm).loyalty_points
          = st.loyalty_points
            + (((cart_total cart + s.delivery_fee.getD 0)
                * (5 / 100 : ℚ)).floor : ℚ)
      ∧ (order_callback_handler env st .order_confirm).reply
          = some "order_success"
      ∧ (order_callback_handler env st .order_confirm).session = none := by
  simp only [order_callback_handler, hsess, hstate, hcart, hpm, hdd, hts,
    hstock, hdb]
  cases havail : env.delivery_person_available <;>
    simp [havail, schedule_delivery, process_loyalty_payment, hpoints,
      add_loyalty_points, List.filter_append]

/-- Witness for C6 amended at the concrete insufficient-balance input. -/
theorem C6_loyalty_insufficient_amended_witness :
    ∃ o, (order_callback_handler runEnv loyaltySt .order_confirm).orders
        = loyaltySt.orders ++ [o]
      ∧ (order_callback_handler runEnv loyaltySt
          .order_confirm).loyalty_transactions.filter
            (fun t => t.transaction_type == "debit")
          = loyaltySt.loyalty_transactions.filter
            (fun t => t.transaction_type == "debit")
      ∧ (order_callback_handler runEnv loyaltySt .order_confirm).loyalty_points
          = loyaltySt.loyalty_points
            + (((cart_total [{ id := 1, name := "10L bottle", price := 9,
                               quantity := 2 }]
                  + confirmSessionLoyalty.delivery_fee.getD 0)
                * (5 / 100 : ℚ)).floor : ℚ)
      ∧ (order_callback_handler runEnv loyaltySt .order_confirm).reply
          = some "order_success"
      ∧ (order_callback_handler runEnv loyaltySt .order_confirm).session
          = none :=
  C6_loyalty_insufficient_amended runEnv loyaltySt confirmSessionLoyalty
    [{ id := 1, name := "10L bottle", price := 9, quantity := 2 }]
    1 "09:00-11:00" rfl rfl rfl rfl rfl rfl (by decide) rfl (by decide)

/-- C8: a run of the (effective) renewal sweep leaves the subscription
and order stores unchanged for every input, and in particular on spec
§8's example — an active subscription due today with frequency 7 — no
order is created and the next-delivery date is not advanced; only a
notification is sent. -/
theorem C8_renewal_sweep_noop :
    (∀ (subs : List Subscription) (orders : List Order) (today : Nat),
      (process_subscription_renewals subs orders today).1 = subs
      ∧ (process_subscription_renewals subs orders today).2.1 = orders)
    ∧ (process_subscription_renewals [dueSub] [] 100).2.1 = []
    ∧ (process_subscription_renewals [dueSub] [] 100).1 = [dueSub]
    ∧ dueSub.next_delivery_date = 100 ∧ dueSub.frequency_days = 7
    ∧ dueSub.status = "active"
    ∧ (process_subscription_renewals [dueSub] [] 100).2.2
        = [dueSub.user_id] :=
  ⟨fun _ _ _ => ⟨rfl, rfl⟩, by decide, by decide, rfl, rfl, rfl,
    by decide⟩

/-- C9: the INSERT of `create_subscription` always fails — its interval
literal is the fixed text `$3 days`, which is not a valid PostgreSQL
interval — so no subscription row is ever persisted and the subscribe
conversation's commit always answers "subscription_failed". -/
theorem C9_create_subscription_always_fails :
    (∀ (today uid pid freq qty : Nat),
      create_subscription today uid pid freq qty = .error ())
    ∧ (∀ (today uid pid freq qty : Nat) (subs : List Subscription),
      subscribe_commit today uid pid freq qty subs
        = (subs, "subscription_failed")) := by
  have h : pg_interval_days "$3 days" = none := by decide
  constructor
  · intro today uid pid freq qty
    simp [create_subscription, h]
  · intro today uid pid freq qty subs
    simp [subscribe_commit, create_subscription, h]
